import Mathlib

/-!
Verification development for `mofa_slack_bot.py`, a single-file pipeline that
fetches the MOFA overseas-safety "new arrival" XML feed, filters the entries
published inside a trailing time window, formats them into one Slack digest
text, and posts it to a webhook.

The Python functions are shallowly embedded as pure Lean functions:

* `parse_leave_date`   — `parse_leave_date` (line 289), including the
  `datetime.strptime(s, "%Y/%m/%d %H:%M:%S")` grammar it relies on;
* `target_mails`       — the extraction-and-filter loop of `main` (lines 400-451);
* `build_slack_text`   — `build_slack_text` (line 302);
* `post_to_slack`      — `post_to_slack` (line 380);
* `mainRun`            — the tail of `main` (lines 453-460).

Network and XML I/O are modelled by passing in the already-extracted field
bundles (`XmlMail`): `ElementTree.findtext(..., default="")` yields the empty
string for an absent field, so every field is a plain `String`.

Timestamps: all datetimes in the program live in one fixed civil timezone
(Asia/Tokyo, a constant UTC offset with no DST), so Python's datetime
comparison and `timedelta` arithmetic coincide with comparison and arithmetic
on the count of civil seconds `dtSec`.  `dtSec` is built from CPython's own
`datetime.toordinal` formulas (`_days_before_year`, `_days_in_month`,
`_days_before_month`).
-/

/-- A parsed `datetime` value.  `tzJST` records whether the value is
timezone-aware (tzinfo = Asia/Tokyo) or naive; the civil fields are the same
either way and all comparisons in the program are between values with the
same `tzJST`. -/
structure DateTime where
  year : Nat
  month : Nat
  day : Nat
  hour : Nat
  minute : Nat
  second : Nat
  tzJST : Bool
deriving DecidableEq, Repr

/-- CPython `datetime._is_leap`. -/
def isLeapYear (y : Nat) : Bool :=
  y % 4 == 0 && (y % 100 != 0 || y % 400 == 0)

/-- CPython `datetime._days_in_month` for months 1..12. -/
def daysInMonth (y m : Nat) : Nat :=
  if m = 2 then (if isLeapYear y then 29 else 28)
  else if m = 4 ∨ m = 6 ∨ m = 9 ∨ m = 11 then 30
  else 31

/-- CPython `datetime._days_before_year`: days before January 1st of `y`. -/
def daysBeforeYear (y : Nat) : Nat :=
  (y - 1) * 365 + (y - 1) / 4 - (y - 1) / 100 + (y - 1) / 400

/-- CPython `datetime._days_before_month`: days in year `y` strictly before
month `m`. -/
def daysBeforeMonth (y : Nat) : Nat → Nat
  | 0 => 0
  | 1 => 0
  | m + 2 => daysBeforeMonth y (m + 1) + daysInMonth y (m + 1)

/-- CPython `datetime.toordinal`: proleptic Gregorian ordinal of the date. -/
def toOrdinal (dt : DateTime) : Nat :=
  daysBeforeYear dt.year + daysBeforeMonth dt.year dt.month + dt.day

/-- Civil seconds of a datetime.  Two datetimes carrying the same fixed-offset
timezone (or both naive) compare, under Python's `<`, exactly as their `dtSec`
values compare, and subtracting a `timedelta` subtracts its seconds. -/
def dtSec (dt : DateTime) : Nat :=
  toOrdinal dt * 86400 + dt.hour * 3600 + dt.minute * 60 + dt.second

/-- Read a maximal run of ASCII digits: accumulated value, number of digits
read, rest of the input. -/
def readRunAux (acc len : Nat) : List Char → Nat × Nat × List Char
  | [] => (acc, len, [])
  | c :: cs =>
    if c.isDigit then readRunAux (acc * 10 + (c.toNat - 48)) (len + 1) cs
    else (acc, len, c :: cs)

def readRun (cs : List Char) : Nat × Nat × List Char := readRunAux 0 0 cs

def expectChar (c : Char) : List Char → Option (List Char)
  | [] => none
  | x :: cs => if x = c then some cs else none

/-- The ASCII characters matched by Python's regex `\s`.  (With Unicode input
`\s` also matches further Unicode whitespace; the feed's dates are ASCII.) -/
def isPyWs (c : Char) : Bool :=
  c = ' ' || c = '\t' || c = '\n' || c = '\x0b' || c = '\x0c' || c = '\r'

/-- One-or-more whitespace, as `_strptime` compiles a whitespace run in the
format string to `\s+`. -/
def skipWs1 : List Char → Option (List Char)
  | [] => none
  | c :: cs => if isPyWs c then some (cs.dropWhile isPyWs) else none

/-- The regex phase of `datetime.strptime(s, "%Y/%m/%d %H:%M:%S")`
(CPython `_strptime.py`): `%Y` is exactly four digits; `%m`, `%d`, `%H`,
`%M`, `%S` are one or two digits bounded by 12 / 31 / 23 / 59 / 61
respectively; the whole string must be consumed.  Digit runs are maximal
because every field is followed by a non-digit (or the end), so regex
backtracking cannot split a longer run.  Returns (year, month, day, hour,
minute, second). -/
def parseFields (s : String) : Option (Nat × Nat × Nat × Nat × Nat × Nat) :=
  let (y, ny, r1) := readRun s.data
  if ny ≠ 4 then none else
  match expectChar '/' r1 with
  | none => none
  | some r2 =>
    let (mo, nmo, r3) := readRun r2
    if nmo = 0 ∨ 2 < nmo ∨ mo < 1 ∨ 12 < mo then none else
    match expectChar '/' r3 with
    | none => none
    | some r4 =>
      let (d, nd, r5) := readRun r4
      if nd = 0 ∨ 2 < nd ∨ d < 1 ∨ 31 < d then none else
      match skipWs1 r5 with
      | none => none
      | some r6 =>
        let (h, nh, r7) := readRun r6
        if nh = 0 ∨ 2 < nh ∨ 23 < h then none else
        match expectChar ':' r7 with
        | none => none
        | some r8 =>
          let (mi, nmi, r9) := readRun r8
          if nmi = 0 ∨ 2 < nmi ∨ 59 < mi then none else
          match expectChar ':' r9 with
          | none => none
          | some r10 =>
            let (se, nse, r11) := readRun r10
            if nse = 0 ∨ 2 < nse ∨ 61 < se then none else
            if r11 ≠ [] then none else
            some (y, mo, d, h, mi, se)

/-- `datetime.strptime(s, "%Y/%m/%d %H:%M:%S")`: the regex phase above
followed by the `datetime(...)` constructor's validation (year ≥ MINYEAR = 1,
day within the month, second ≤ 59 — the regex-admitted leap seconds 60/61 are
rejected by the constructor).  A `ValueError` from either phase is `none`. -/
def strptimeYmdHms (s : String) : Option DateTime :=
  match parseFields s with
  | none => none
  | some (y, mo, d, h, mi, se) =>
    if y < 1 ∨ daysInMonth y mo < d ∨ 59 < se then none
    else some ⟨y, mo, d, h, mi, se, false⟩

/-- `parse_leave_date` (line 289).  `zoneAvail` models `ZoneInfo is not None`
(the `zoneinfo` import succeeded; constructing `ZoneInfo("Asia/Tokyo")` is
assumed to succeed whenever the module is importable).  A falsy (empty)
input returns `None`; a parse failure is caught and returns `None`; on
success the result carries tzinfo Asia/Tokyo exactly when `zoneAvail`. -/
def parse_leave_date (zoneAvail : Bool) (s : String) : Option DateTime :=
  if s = "" then none
  else
    match strptimeYmdHms s with
    | none => none
    | some dt => some (if zoneAvail then { dt with tzJST := true } else dt)

/-- `COUNTRY_CODE_MAP` (lines 34-248): the static country-code table,
transcribed entry for entry.  Python dict lookup is modelled by
`List.lookup`; the keys are pairwise distinct, so first-match lookup agrees
with the dict. -/
def COUNTRY_CODE_MAP : List (String × String) := [
  ("0060", "マレーシア"),
  ("0062", "インドネシア"),
  ("0063", "フィリピン"),
  ("0065", "シンガポール"),
  ("0066", "タイ"),
  ("0082", "大韓民国／韓国"),
  ("0084", "ベトナム"),
  ("0086", "中華人民共和国／中国"),
  ("0091", "インド"),
  ("0092", "パキスタン"),
  ("0094", "スリランカ"),
  ("0095", "ミャンマー"),
  ("0670", "東ティモール"),
  ("0673", "ブルネイ"),
  ("0850", "北朝鮮"),
  ("0852", "香港"),
  ("0853", "マカオ"),
  ("0855", "カンボジア"),
  ("0856", "ラオス"),
  ("0880", "バングラデシュ"),
  ("0886", "台湾"),
  ("0960", "モルディブ"),
  ("0975", "ブータン"),
  ("0976", "モンゴル"),
  ("0977", "ネパール"),
  ("0061", "オーストラリア／豪州"),
  ("0064", "ニュージーランド"),
  ("0674", "ナウル"),
  ("0675", "パプアニューギニア"),
  ("0676", "トンガ"),
  ("0677", "ソロモン諸島"),
  ("0678", "バヌアツ"),
  ("0679", "フィジー"),
  ("0680", "パラオ"),
  ("0682", "クック諸島"),
  ("0683", "ニウエ"),
  ("0685", "サモア独立国"),
  ("0686", "キリバス"),
  ("0687", "ニューカレドニア（仏領）"),
  ("0688", "ツバル"),
  ("0691", "ミクロネシア"),
  ("0692", "マーシャル諸島"),
  ("1001", "アメリカ合衆国／米国（北マリアナ諸島）"),
  ("1002", "アメリカ合衆国／米国（グアム）"),
  ("1684", "サモア（米領）"),
  ("9689", "タヒチ（仏領ポリネシア）"),
  ("1000", "アメリカ合衆国／米国（本土）"),
  ("1808", "アメリカ合衆国／米国（ハワイ）"),
  ("9001", "カナダ"),
  ("0051", "ペルー"),
  ("0052", "メキシコ"),
  ("0053", "キューバ"),
  ("0054", "アルゼンチン"),
  ("0055", "ブラジル"),
  ("0056", "チリ"),
  ("0057", "コロンビア"),
  ("0058", "ベネズエラ"),
  ("0473", "グレナダ"),
  ("0501", "ベリーズ"),
  ("0502", "グアテマラ"),
  ("0503", "エルサルバドル"),
  ("0504", "ホンジュラス"),
  ("0505", "ニカラグア"),
  ("0506", "コスタリカ"),
  ("0507", "パナマ"),
  ("0509", "ハイチ"),
  ("0591", "ボリビア"),
  ("0592", "ガイアナ"),
  ("0593", "エクアドル"),
  ("0595", "パラグアイ"),
  ("0597", "スリナム"),
  ("0598", "ウルグアイ"),
  ("0758", "セントルシア"),
  ("0767", "ドミニカ国"),
  ("0784", "セントビンセント及びグレナディーン諸島"),
  ("0809", "ドミニカ共和国"),
  ("0868", "トリニダード・トバゴ"),
  ("0869", "セントクリストファー・ネービス"),
  ("0876", "ジャマイカ"),
  ("1242", "バハマ"),
  ("1246", "バルバドス"),
  ("1268", "アンティグア・バーブーダ"),
  ("0007", "カザフスタン"),
  ("0030", "ギリシャ"),
  ("0031", "オランダ"),
  ("0032", "ベルギー"),
  ("0033", "フランス"),
  ("0034", "スペイン"),
  ("0036", "ハンガリー"),
  ("0039", "イタリア"),
  ("0040", "ルーマニア"),
  ("0041", "スイス"),
  ("0043", "オーストリア"),
  ("0044", "英国／イギリス／グレートブリテン及び北部アイルランド連合王国"),
  ("0045", "デンマーク"),
  ("0046", "スウェーデン"),
  ("0047", "ノルウェー"),
  ("0048", "ポーランド"),
  ("0049", "ドイツ"),
  ("0351", "ポルトガル"),
  ("0352", "ルクセンブルク"),
  ("0353", "アイルランド"),
  ("0354", "アイスランド"),
  ("0355", "アルバニア"),
  ("0356", "マルタ"),
  ("0357", "キプロス／サイプラス"),
  ("0358", "フィンランド"),
  ("0359", "ブルガリア"),
  ("0370", "リトアニア"),
  ("0371", "ラトビア"),
  ("0372", "エストニア"),
  ("0373", "モルドバ"),
  ("0374", "アルメニア"),
  ("0375", "ベラルーシ"),
  ("0376", "アンドラ"),
  ("0377", "モナコ"),
  ("0378", "サンマリノ"),
  ("0380", "ウクライナ"),
  ("0381", "セルビア"),
  ("0382", "モンテネグロ"),
  ("0385", "クロアチア"),
  ("0386", "スロベニア"),
  ("0387", "ボスニア・ヘルツェゴビナ"),
  ("0389", "北マケドニア共和国"),
  ("0420", "チェコ"),
  ("0421", "スロバキア"),
  ("0423", "リヒテンシュタイン"),
  ("0992", "タジキスタン"),
  ("0993", "トルクメニスタン"),
  ("0994", "アゼルバイジャン"),
  ("0995", "ジョージア（旧グルジア）"),
  ("0996", "キルギス"),
  ("0998", "ウズベキスタン"),
  ("9007", "ロシア"),
  ("9039", "バチカン市国"),
  ("9381", "コソボ"),
  ("0090", "トルコ"),
  ("0093", "アフガニスタン"),
  ("0098", "イラン"),
  ("0961", "レバノン"),
  ("0962", "ヨルダン"),
  ("0963", "シリア"),
  ("0964", "イラク"),
  ("0965", "クウェート"),
  ("0966", "サウジアラビア"),
  ("0967", "イエメン"),
  ("0968", "オマーン"),
  ("0970", "パレスチナ"),
  ("0971", "アラブ首長国連邦"),
  ("0972", "イスラエル"),
  ("0973", "バーレーン"),
  ("0974", "カタール"),
  ("0020", "エジプト"),
  ("0027", "南アフリカ共和国"),
  ("0211", "南スーダン"),
  ("0212", "モロッコ"),
  ("0213", "アルジェリア"),
  ("0216", "チュニジア"),
  ("0218", "リビア"),
  ("0220", "ガンビア"),
  ("0221", "セネガル"),
  ("0222", "モーリタニア"),
  ("0223", "マリ"),
  ("0224", "ギニア"),
  ("0225", "コートジボワール"),
  ("0226", "ブルキナファソ"),
  ("0227", "ニジェール"),
  ("0228", "トーゴ"),
  ("0229", "ベナン"),
  ("0230", "モーリシャス"),
  ("0231", "リベリア"),
  ("0232", "シエラレオネ"),
  ("0233", "ガーナ"),
  ("0234", "ナイジェリア"),
  ("0235", "チャド"),
  ("0236", "中央アフリカ"),
  ("0237", "カメルーン"),
  ("0238", "カーボベルデ"),
  ("0239", "サントメ・プリンシペ"),
  ("0240", "赤道ギニア"),
  ("0241", "ガボン"),
  ("0242", "コンゴ共和国"),
  ("0243", "コンゴ民主共和国"),
  ("0244", "アンゴラ"),
  ("0245", "ギニアビサウ"),
  ("0248", "セーシェル"),
  ("0249", "スーダン"),
  ("0250", "ルワンダ"),
  ("0251", "エチオピア"),
  ("0252", "ソマリア"),
  ("0253", "ジブチ"),
  ("0254", "ケニア"),
  ("0255", "タンザニア"),
  ("0256", "ウガンダ"),
  ("0257", "ブルンジ"),
  ("0258", "モザンビーク"),
  ("0260", "ザンビア"),
  ("0261", "マダガスカル"),
  ("0263", "ジンバブエ"),
  ("0264", "ナミビア"),
  ("0265", "マラウイ"),
  ("0266", "レソト"),
  ("0267", "ボツワナ"),
  ("0268", "エスワティニ"),
  ("0269", "コモロ"),
  ("0291", "エリトリア"),
  ("9212", "西サハラ")]

/-- `INFO_TYPE_MAP` (lines 251-260): the static notice-type table. -/
def INFO_TYPE_MAP : List (String × String) := [
  ("T40", "危険情報"),
  ("T81", "感染症危険情報"),
  ("C30", "スポット情報"),
  ("C31", "スポット情報(感染症)"),
  ("C50", "広域情報"),
  ("C51", "広域情報(感染症)"),
  ("R10", "領事メール(一般)"),
  ("R20", "領事メール(緊急)")]

/-- Python string truthiness and `a or b` for strings. -/
def pyOrS (a b : String) : String := if a = "" then b else a

/-- The text fields read from one `<mail>` XML element in `main`
(lines 402-429); `findtext(..., default="")` makes every absent field `""`. -/
structure XmlMail where
  infoType : String
  infoName : String
  infoNameLong : String
  leaveDate : String
  countryName : String
  countryCd : String
  areaName : String
  title : String
  infoUrl : String
  koukanCd : String
  koukanName : String
  riskLevel1 : String
  riskLevel2 : String
  riskLevel3 : String
  riskLevel4 : String
  infectionLevel1 : String
  infectionLevel2 : String
  infectionLevel3 : String
  infectionLevel4 : String
deriving DecidableEq, Repr

/-- The `obj` dict built in `main` (lines 431-449). -/
structure Mail where
  info_type : String
  info_name : String
  info_name_long : String
  leave_date : String
  leave_dt : Option DateTime
  country_name : String
  country_cd : String
  area_name : String
  title : String
  info_url : String
  koukan_cd : String
  koukan_name : String
  risk_level1 : String
  risk_level2 : String
  risk_level3 : String
  risk_level4 : String
  infection_level1 : String
  infection_level2 : String
  infection_level3 : String
  infection_level4 : String
deriving DecidableEq, Repr

/-- `WINDOW_MINUTES` (line 265). -/
def WINDOW_MINUTES : Nat := 1440

/-- `threshold = now_jst - timedelta(minutes=WINDOW_MINUTES)` (line 398),
in civil seconds. -/
def thresholdSec (nowSec : Int) : Int := nowSec - (WINDOW_MINUTES : Int) * 60

/-- Construction of `obj` from the element's fields (lines 431-449). -/
def extractMail (x : XmlMail) (leave_dt : Option DateTime) : Mail :=
  { info_type := x.infoType
    info_name := x.infoName
    info_name_long := x.infoNameLong
    leave_date := x.leaveDate
    leave_dt := leave_dt
    country_name := x.countryName
    country_cd := x.countryCd
    area_name := x.areaName
    title := x.title
    info_url := x.infoUrl
    koukan_cd := x.koukanCd
    koukan_name := x.koukanName
    risk_level1 := x.riskLevel1
    risk_level2 := x.riskLevel2
    risk_level3 := x.riskLevel3
    risk_level4 := x.riskLevel4
    infection_level1 := x.infectionLevel1
    infection_level2 := x.infectionLevel2
    infection_level3 := x.infectionLevel3
    infection_level4 := x.infectionLevel4 }

/-- One iteration of the loop in `main`: parse the publish date, apply the
window test `if leave_dt is None or leave_dt < threshold: continue`
(lines 407-411), and build `obj` for a record that is kept. -/
def processMail (nowSec : Int) (zoneAvail : Bool) (x : XmlMail) : Option Mail :=
  match parse_leave_date zoneAvail x.leaveDate with
  | none => none
  | some dt =>
    if (dtSec dt : Int) < thresholdSec nowSec then none
    else some (extractMail x (some dt))

/-- The window filter's keep/drop decision for one record. -/
def windowKeep (nowSec : Int) (zoneAvail : Bool) (x : XmlMail) : Bool :=
  (processMail nowSec zoneAvail x).isSome

/-- `target_mails` as accumulated by the loop of `main` (lines 400-451). -/
def target_mails (nowSec : Int) (zoneAvail : Bool) (xs : List XmlMail) : List Mail :=
  xs.filterMap (processMail nowSec zoneAvail)

/-- Zero-pad to two digits, as glibc `strftime` does for `%m %d %H %M`. -/
def pad2 (n : Nat) : String := if n < 10 then "0" ++ toString n else toString n

/-- `leave_dt.strftime("%Y/%m/%d %H:%M")` (line 333).  On glibc (the Linux
runner the bot targets) `%Y` prints the year unpadded; parsed years are four
digits anyway. -/
def fmtYmdHm (dt : DateTime) : String :=
  toString dt.year ++ "/" ++ pad2 dt.month ++ "/" ++ pad2 dt.day ++ " "
    ++ pad2 dt.hour ++ ":" ++ pad2 dt.minute

/-- `ld_str` (line 333): format the parsed datetime, or fall back to the raw
string when `leave_dt` is falsy (`None`). -/
def ldStr (m : Mail) : String :=
  match m.leave_dt with
  | some dt => fmtYmdHm dt
  | none => m.leave_date

/-- `paren_country = country_name_from_map or m["country_name"] or ""`
(line 324). -/
def parenCountry (m : Mail) : String :=
  let code := pyOrS m.country_cd ""
  match List.lookup code COUNTRY_CODE_MAP with
  | some lbl => pyOrS lbl (pyOrS m.country_name "")
  | none => pyOrS m.country_name ""

/-- `base_country_label` (line 321): `"国コード: <code>"` when the code is
truthy, else the feed name, else `"国不明"`. -/
def baseCountryLabel (m : Mail) : String :=
  let code := pyOrS m.country_cd ""
  if code ≠ "" then "国コード: " ++ code
  else pyOrS m.country_name "国不明"

/-- `first_line_country` (lines 327-330). -/
def firstLineCountry (m : Mail) : String :=
  if parenCountry m ≠ "" then
    "*" ++ baseCountryLabel m ++ "*（" ++ parenCountry m ++ "）"
  else
    "*" ++ baseCountryLabel m ++ "*"

/-- `type_text` (lines 336-343): table label when the lookup is truthy, else
`info_name_long or info_name or info_type` as the parenthetical fallback. -/
def typeText (m : Mail) : String :=
  let label := List.lookup m.info_type INFO_TYPE_MAP
  if (label.getD "") ≠ "" then
    m.info_type ++ "（" ++ label.getD "" ++ "）"
  else
    let fallback := pyOrS (pyOrS m.info_name_long m.info_name) m.info_type
    m.info_type ++ "（" ++ fallback ++ "）"

/-- `koukan` (lines 345-347). -/
def koukanText (m : Mail) : String :=
  if m.koukan_name ≠ "" then
    "　発出公館: " ++ m.koukan_name ++ "（" ++ m.koukan_cd ++ "）\n"
  else ""

def riskFlag (m : Mail) : Nat → String
  | 1 => m.risk_level1
  | 2 => m.risk_level2
  | 3 => m.risk_level3
  | 4 => m.risk_level4
  | _ => ""

def infFlag (m : Mail) : Nat → String
  | 1 => m.infection_level1
  | 2 => m.infection_level2
  | 3 => m.infection_level3
  | 4 => m.infection_level4
  | _ => ""

/-- Python `sep.join(list)`. -/
def joinWith (sep : String) : List String → String
  | [] => ""
  | [x] => x
  | x :: y :: xs => x ++ sep ++ joinWith sep (y :: xs)

/-- `lv_str` (lines 352-354): the flagged risk tiers from 4 down to 1. -/
def lvStrRisk (m : Mail) : String :=
  joinWith " / " ((([4, 3, 2, 1] : List Nat).filter (fun lv => riskFlag m lv == "Y")).map
    (fun lv => "L" ++ toString lv))

/-- `lv_str_inf` (lines 357-359): the flagged infection tiers from 4 down to 1. -/
def lvStrInf (m : Mail) : String :=
  joinWith " / " ((([4, 3, 2, 1] : List Nat).filter (fun lv => infFlag m lv == "Y")).map
    (fun lv => "L" ++ toString lv))

/-- `level_parts` (lines 350-360). -/
def levelParts (m : Mail) : List String :=
  (if ([1, 2, 3, 4] : List Nat).any (fun lv => riskFlag m lv == "Y") then
    ["危険情報レベル: " ++ lvStrRisk m]
  else []) ++
  (if ([1, 2, 3, 4] : List Nat).any (fun lv => infFlag m lv == "Y") then
    ["感染症危険レベル: " ++ lvStrInf m]
  else [])

/-- `level_text` (lines 361-363): omitted entirely when no tier is flagged. -/
def levelText (m : Mail) : String :=
  if levelParts m ≠ [] then "　" ++ joinWith " / " (levelParts m) ++ "\n"
  else ""

/-- One record's block `line` (lines 365-373). -/
def mailBlock (m : Mail) : String :=
  "• " ++ firstLineCountry m ++ "（" ++ pyOrS m.area_name "" ++ "）\n"
    ++ "　種別: " ++ typeText m ++ "\n"
    ++ "　日時: " ++ ldStr m ++ "\n"
    ++ koukanText m
    ++ levelText m
    ++ "　タイトル: " ++ m.title ++ "\n"
    ++ "　詳細: " ++ m.info_url ++ "\n"

/-- Sort key of line 315: `key=lambda m: m["leave_dt"]`, i.e. the parsed
datetime, compared as civil seconds.  The `none` case never reaches the sort
in the program (every record passed to the formatter survived the `None`
filter of line 410); in Python a `None` key mixed with datetimes would raise
`TypeError`. -/
def leaveKey (m : Mail) : Int :=
  match m.leave_dt with
  | some dt => (dtSec dt : Int)
  | none => 0

/-- Insertion step of the stable ascending sort: `x` goes in front of the
first element whose key is `≥` its own, hence after every earlier element
with an equal key — the stable placement, matching Python's stable
`sorted`. -/
def ordInsert (x : Mail) : List Mail → List Mail
  | [] => [x]
  | y :: l => if leaveKey x ≤ leaveKey y then x :: y :: l else y :: ordInsert x l

/-- `sorted(mails, key=lambda m: m["leave_dt"])` (line 315): the stable
ascending sort by `leaveKey` (any two stable sorts by the same key agree). -/
def sortMails : List Mail → List Mail
  | [] => []
  | x :: l => ordInsert x (sortMails l)

/-- The fixed header lines of the digest (lines 308-312); `nowStr` is
`get_now_jst().strftime("%Y-%m-%d %H:%M")`. -/
def headerLines (nowStr : String) : List String :=
  ["*【外務省 海外安全情報オープンデータ 新着】*", "取得時刻（JST）: " ++ nowStr, ""]

/-- `build_slack_text` (lines 302-376): `None` for a falsy (empty) input,
otherwise the header lines followed by one block per record, sorted, joined
with newlines. -/
def build_slack_text (nowStr : String) (mails : List Mail) : Option String :=
  if mails = [] then none
  else some (joinWith "\n" (headerLines nowStr ++ (sortMails mails).map mailBlock))

/-- A call `build_slack_text(mails)` with the caller's list made explicit:
the returned text together with the list the caller still holds afterwards.
Line 315 rebinds the local name `mails` to a fresh sorted list and never
mutates the argument, so the caller's list is returned unchanged. -/
def buildSlackTextCall (nowStr : String) (mails : List Mail) : Option String × List Mail :=
  (build_slack_text nowStr mails, mails)

/-- The HTTP POST performed by `requests.post(SLACK_WEBHOOK_URL, json=payload)`
(line 391): destination URL and the `"text"` payload field. -/
structure SlackPost where
  url : String
  payloadText : String
deriving DecidableEq, Repr

/-- The `RuntimeError` message of line 383; the spec's `ConfigurationError`. -/
def configErrMsg : String := "SLACK_WEBHOOK_URL が環境変数に設定されていません。"

/-- `post_to_slack` (lines 380-392): raise when the webhook URL is falsy
(unset or empty), otherwise perform the POST.  The check precedes the POST,
so the error case produces no `SlackPost`. -/
def post_to_slack (webhookUrl : Option String) (text : String) : Except String SlackPost :=
  match webhookUrl with
  | none => Except.error configErrMsg
  | some url =>
    if url = "" then Except.error configErrMsg
    else Except.ok { url := url, payloadText := text }

/-- The status line printed when the filtered set is empty (line 454). -/
def noNewItemsMsg : String := "新着情報（海外安全情報・在外公館メール）はありませんでした。"

/-- What a run of `main`'s delivery tail does: either the no-new-items status,
or a delivered post plus the count status line, or nothing at all (the
`if text:` guard failed — unreachable in practice). -/
inductive RunOutcome where
  | noNewItems (printed : String)
  | sent (post : SlackPost) (printed : String)
  | builtNothing
deriving DecidableEq, Repr

/-- Extract the delivery POST of a run, if one happened. -/
def postOf : Except String RunOutcome → Option SlackPost
  | Except.ok (RunOutcome.sent p _) => some p
  | _ => none

/-- Lines 453-460 of `main`: stop with the no-new-items status when the
filtered list is empty; otherwise build the digest and, when it is truthy,
post it and print the count status.  An uncaught exception of
`post_to_slack` aborts the run (`Except.error`). -/
def mainRun (zoneAvail : Bool) (webhook : Option String) (nowSec : Int)
    (nowStr : String) (xs : List XmlMail) : Except String RunOutcome :=
  let tm := target_mails nowSec zoneAvail xs
  if tm = [] then Except.ok (RunOutcome.noNewItems noNewItemsMsg)
  else
    match build_slack_text nowStr tm with
    | none => Except.ok RunOutcome.builtNothing
    | some text =>
      if text = "" then Except.ok RunOutcome.builtNothing
      else
        match post_to_slack webhook text with
        | Except.error e => Except.error e
        | Except.ok p =>
          Except.ok (RunOutcome.sent p
            (toString tm.length ++ " 件の情報を Slack に送信しました。"))

/-- Does the pattern occur at the head of the character list? -/
def startsWithChars : List Char → List Char → Bool
  | _, [] => true
  | [], _ :: _ => false
  | c :: cs, p :: ps => c = p && startsWithChars cs ps

/-- Does the pattern occur anywhere in the character list? -/
def containsChars : List Char → List Char → Bool
  | [], pat => pat.isEmpty
  | c :: cs, pat => startsWithChars (c :: cs) pat || containsChars cs pat

/-- Substring occurrence test on strings. -/
def strContainsSub (s pat : String) : Bool := containsChars s.data pat.data

def dtW : DateTime := ⟨2024, 1, 2, 0, 0, 0, true⟩

def xW : XmlMail :=
  { infoType := "T40"
    infoName := ""
    infoNameLong := ""
    leaveDate := "2024/01/02 00:00:00"
    countryName := ""
    countryCd := ""
    areaName := ""
    title := ""
    infoUrl := ""
    koukanCd := ""
    koukanName := ""
    riskLevel1 := ""
    riskLevel2 := ""
    riskLevel3 := ""
    riskLevel4 := ""
    infectionLevel1 := ""
    infectionLevel2 := ""
    infectionLevel3 := ""
    infectionLevel4 := "" }

/-- A reference "now": exactly one window after `xW`'s publish instant. -/
def nowW : Int := (dtSec dtW : Int) + 86400

def xBad : XmlMail := { xW with leaveDate := "2025-01-01 00:00:00" }

def emptyMail : Mail :=
  { info_type := ""
    info_name := ""
    info_name_long := ""
    leave_date := ""
    leave_dt := none
    country_name := ""
    country_cd := ""
    area_name := ""
    title := ""
    info_url := ""
    koukan_cd := ""
    koukan_name := ""
    risk_level1 := ""
    risk_level2 := ""
    risk_level3 := ""
    risk_level4 := ""
    infection_level1 := ""
    infection_level2 := ""
    infection_level3 := ""
    infection_level4 := "" }

def c3Mail : Mail := { emptyMail with country_cd := "9999" }

def mThai : Mail := { emptyMail with country_cd := "0066", country_name := "タイ王国" }

def mNoTable : Mail := { emptyMail with country_cd := "9998", country_name := "どこか" }

def mT40 : Mail := { emptyMail with info_type := "T40" }

def mZ1 : Mail := { emptyMail with info_type := "Z99", info_name_long := "長い名前", info_name := "短い" }

def mZ2 : Mail := { emptyMail with info_type := "Z99", info_name := "短い" }

def mZ3 : Mail := { emptyMail with info_type := "Z99" }

def mInf24 : Mail :=
  { emptyMail with
    infection_level2 := "Y"
    infection_level4 := "Y"
    infection_level1 := "N"
    infection_level3 := "N" }

def mT1 : Mail := { emptyMail with leave_dt := some ⟨2024, 1, 1, 0, 0, 0, true⟩, title := "one" }

def mT2 : Mail := { emptyMail with leave_dt := some ⟨2024, 1, 5, 0, 0, 0, true⟩, title := "two" }

def mT3 : Mail := { emptyMail with leave_dt := some ⟨2024, 1, 3, 0, 0, 0, true⟩, title := "three" }

def xStale : XmlMail := { xW with leaveDate := "2020/01/01 00:00:00" }

instance : DecidableEq (Except String RunOutcome) := fun x y =>
  match x, y with
  | Except.error a, Except.error b =>
    if h : a = b then isTrue (by rw [h])
    else isFalse (by intro hc; injection hc with h2; exact h h2)
  | Except.ok a, Except.ok b =>
    if h : a = b then isTrue (by rw [h])
    else isFalse (by intro hc; injection hc with h2; exact h h2)
  | Except.error a, Except.ok b => isFalse (by intro hc; cases hc)
  | Except.ok a, Except.error b => isFalse (by intro hc; cases hc)

def urlW : String := "https://example.invalid/webhook"

def textW : String := (build_slack_text "2024-01-03 09:00" (target_mails nowW true [xW])).getD ""

def postW : SlackPost := { url := urlW, payloadText := textW }

def printedW : String :=
  toString (target_mails nowW true [xW]).length ++ " 件の情報を Slack に送信しました。"

theorem lookup_mem_values {α β : Type} [BEq α] [LawfulBEq α] (k : α) (v : β) :
    ∀ l : List (α × β), List.lookup k l = some v → v ∈ l.map Prod.snd := by
  intro l
  induction l with
  | nil => intro h; simp [List.lookup] at h
  | cons p t ih =>
    intro h
    rw [List.lookup] at h
    by_cases hk : k == p.1
    · simp [hk] at h
      simp [h]
    · simp [hk] at h
      simpa using Or.inr (ih h)

theorem info_type_map_values_nonempty :
    INFO_TYPE_MAP.all (fun p => !(p.2 == "")) = true := by decide

theorem country_map_values_nonempty :
    COUNTRY_CODE_MAP.all (fun p => !(p.2 == "")) = true := by decide

theorem lookup_info_type_ne_empty (k v : String)
    (h : List.lookup k INFO_TYPE_MAP = some v) : v ≠ "" := by
  have hv := lookup_mem_values k v INFO_TYPE_MAP h
  have hall := info_type_map_values_nonempty
  rw [List.all_eq_true] at hall
  simp only [List.mem_map] at hv
  obtain ⟨p, hp, rfl⟩ := hv
  have := hall p hp
  simpa using this

theorem lookup_country_ne_empty (k v : String)
    (h : List.lookup k COUNTRY_CODE_MAP = some v) : v ≠ "" := by
  have hv := lookup_mem_values k v COUNTRY_CODE_MAP h
  have hall := country_map_values_nonempty
  rw [List.all_eq_true] at hall
  simp only [List.mem_map] at hv
  obtain ⟨p, hp, rfl⟩ := hv
  have := hall p hp
  simpa using this

theorem mem_ordInsert (x z : Mail) :
    ∀ l : List Mail, z ∈ ordInsert x l ↔ z = x ∨ z ∈ l := by
  intro l
  induction l with
  | nil => simp [ordInsert]
  | cons y t ih =>
    rw [ordInsert]
    by_cases h : leaveKey x ≤ leaveKey y
    · simp [h]
    · simp only [if_neg h, List.mem_cons, ih]
      tauto

theorem pairwise_ordInsert (x : Mail) :
    ∀ l : List Mail, l.Pairwise (fun a b => leaveKey a ≤ leaveKey b) →
      (ordInsert x l).Pairwise (fun a b => leaveKey a ≤ leaveKey b) := by
  intro l
  induction l with
  | nil => intro _; simp [ordInsert]
  | cons y t ih =>
    intro hp
    rw [List.pairwise_cons] at hp
    rw [ordInsert]
    by_cases h : leaveKey x ≤ leaveKey y
    · rw [if_pos h]
      refine List.Pairwise.cons ?_ (List.Pairwise.cons hp.1 hp.2)
      intro z hz
      rcases List.mem_cons.mp hz with rfl | hz'
      · exact h
      · exact le_trans h (hp.1 z hz')
    · rw [if_neg h]
      refine List.Pairwise.cons ?_ (ih hp.2)
      intro z hz
      rcases (mem_ordInsert x z t).mp hz with rfl | hz'
      · exact le_of_not_le h
      · exact hp.1 z hz'

theorem sortMails_pairwise :
    ∀ l : List Mail, (sortMails l).Pairwise (fun a b => leaveKey a ≤ leaveKey b) := by
  intro l
  induction l with
  | nil => simp [sortMails]
  | cons x t ih => exact pairwise_ordInsert x (sortMails t) ih

theorem filter_ordInsert (k : Int) (x : Mail) :
    ∀ l : List Mail,
      (ordInsert x l).filter (fun m => leaveKey m == k)
        = (x :: l).filter (fun m => leaveKey m == k) := by
  intro l
  induction l with
  | nil => rfl
  | cons y t ih =>
    rw [ordInsert]
    by_cases h : leaveKey x ≤ leaveKey y
    · rw [if_pos h]
    · rw [if_neg h]
      by_cases hy : leaveKey y = k
      · have hx : leaveKey x ≠ k := by
          intro hxk
          exact h (le_of_eq (hxk.trans hy.symm))
        have hyb : (leaveKey y == k) = true := by simp [hy]
        have hxb : (leaveKey x == k) = false := by simp [hx]
        simp [List.filter_cons, hyb, hxb, ih]
      · have hyb : (leaveKey y == k) = false := by simp [hy]
        by_cases hx : leaveKey x = k
        · have hxb : (leaveKey x == k) = true := by simp [hx]
          simp [List.filter_cons, hyb, hxb, ih]
        · have hxb : (leaveKey x == k) = false := by simp [hx]
          simp [List.filter_cons, hyb, hxb, ih]

theorem sortMails_filter (k : Int) :
    ∀ l : List Mail,
      (sortMails l).filter (fun m => leaveKey m == k)
        = l.filter (fun m => leaveKey m == k) := by
  intro l
  induction l with
  | nil => rfl
  | cons x t ih =>
    rw [sortMails, filter_ordInsert]
    by_cases hx : leaveKey x = k
    · simp [List.filter, hx, ih]
    · simp [List.filter, hx, ih]

theorem joinWith_length_ge (sep a : String) :
    ∀ l : List String, a.length ≤ (joinWith sep (a :: l)).length := by
  intro l
  cases l with
  | nil => simp [joinWith]
  | cons x xs =>
    rw [joinWith]
    simp [String.length_append]
    omega

theorem build_slack_text_ne_empty (nowStr : String) (mails : List Mail)
    (h : mails ≠ []) :
    ∃ t, build_slack_text nowStr mails = some t ∧ t ≠ "" := by
  refine ⟨joinWith "\n" (headerLines nowStr ++ (sortMails mails).map mailBlock),
    by rw [build_slack_text, if_neg h], ?_⟩
  intro he
  have hlen := joinWith_length_ge "\n" "*【外務省 海外安全情報オープンデータ 新着】*"
    (("取得時刻（JST）: " ++ nowStr) :: "" :: (sortMails mails).map mailBlock)
  rw [headerLines] at he
  simp only [List.cons_append, List.nil_append] at he hlen
  rw [he] at hlen
  simp only [String.length_empty, Nat.le_zero] at hlen
  exact absurd hlen (by decide)

theorem pyOrS_empty_right (a : String) : pyOrS a "" = a := by
  rw [pyOrS]; split <;> simp_all

/-- C1: the window filter keeps a record if and only if its publish timestamp
parsed successfully and is at least `now - window` (the window is
`WINDOW_MINUTES = 1440` minutes, i.e. 86400 seconds); a record whose parsed
timestamp equals `now - window` exactly is included (boundary inclusive), and
a record whose parsed timestamp is one second earlier is excluded. -/
theorem window_filter_keep_iff_boundary (nowSec : Int) (zoneAvail : Bool) (x : XmlMail) :
    (windowKeep nowSec zoneAvail x = true ↔
      ∃ dt, parse_leave_date zoneAvail x.leaveDate = some dt ∧
        thresholdSec nowSec ≤ (dtSec dt : Int))
    ∧ (∀ dt, parse_leave_date zoneAvail x.leaveDate = some dt →
        (dtSec dt : Int) = nowSec - 86400 → windowKeep nowSec zoneAvail x = true)
    ∧ (∀ dt, parse_leave_date zoneAvail x.leaveDate = some dt →
        (dtSec dt : Int) = nowSec - 86400 - 1 → windowKeep nowSec zoneAvail x = false) := by
  have hthr : thresholdSec nowSec = nowSec - 86400 := by
    rw [thresholdSec]; norm_num [WINDOW_MINUTES]
  have hiff : windowKeep nowSec zoneAvail x = true ↔
      ∃ dt, parse_leave_date zoneAvail x.leaveDate = some dt ∧
        thresholdSec nowSec ≤ (dtSec dt : Int) := by
    rw [windowKeep, processMail]
    cases hp : parse_leave_date zoneAvail x.leaveDate with
    | none => simp
    | some dt =>
      by_cases hlt : (dtSec dt : Int) < thresholdSec nowSec
      · simp [hlt, not_le.mpr hlt]
      · simp [hlt, not_lt.mp hlt]
  refine ⟨hiff, ?_, ?_⟩
  · intro dt hp heq
    exact hiff.mpr ⟨dt, hp, by rw [hthr, heq]⟩
  · intro dt hp heq
    by_contra hk
    rw [Bool.not_eq_false] at hk
    obtain ⟨dt', hp', hge⟩ := hiff.mp hk
    rw [hp] at hp'
    injection hp' with h'
    subst h'
    rw [hthr, heq] at hge
    omega

theorem window_filter_boundary_witness :
    windowKeep nowW true xW = true ∧ windowKeep (nowW + 1) true xW = false :=
  ⟨(window_filter_keep_iff_boundary nowW true xW).2.1 dtW (by decide) (by decide),
   (window_filter_keep_iff_boundary (nowW + 1) true xW).2.2 dtW (by decide) (by decide)⟩

/-- C2: a record whose publish-date string is empty or fails to parse is
dropped by the loop's window test, whatever its other fields hold, and the
collected `target_mails` list is as if the record were not in the feed at
all. -/
theorem unparseable_excluded (nowSec : Int) (zoneAvail : Bool) (x : XmlMail)
    (h : x.leaveDate = "" ∨ parse_leave_date zoneAvail x.leaveDate = none) :
    processMail nowSec zoneAvail x = none
    ∧ ∀ xs ys, target_mails nowSec zoneAvail (xs ++ x :: ys)
        = target_mails nowSec zoneAvail (xs ++ ys) := by
  have hp : parse_leave_date zoneAvail x.leaveDate = none := by
    rcases h with he | hp
    · rw [parse_leave_date, if_pos he]
    · exact hp
  have hpm : processMail nowSec zoneAvail x = none := by rw [processMail, hp]
  refine ⟨hpm, ?_⟩
  intro xs ys
  rw [target_mails, target_mails, List.filterMap_append, List.filterMap_append]
  congr 1
  simp [List.filterMap_cons, hpm]

theorem unparseable_excluded_witness :
    processMail 0 true xBad = none
    ∧ target_mails 0 true ([xW] ++ xBad :: []) = target_mails 0 true ([xW] ++ []) := by
  have h := unparseable_excluded 0 true xBad (Or.inr (by decide))
  exact ⟨h.1, h.2 [xW] []⟩

/-- C9: date parsing is total and never raises: every input yields either
`none` or a timestamp whose tzinfo is Asia/Tokyo exactly when the timezone
machinery is available (naive otherwise), and the empty string yields
`none`. -/
theorem parse_leave_date_total (zoneAvail : Bool) (s : String) :
    (parse_leave_date zoneAvail s = none
      ∨ ∃ dt, parse_leave_date zoneAvail s = some dt ∧ dt.tzJST = zoneAvail)
    ∧ parse_leave_date zoneAvail "" = none := by
  constructor
  · by_cases he : s = ""
    · left; rw [parse_leave_date, if_pos he]
    · rw [parse_leave_date, if_neg he]
      cases hq : strptimeYmdHms s with
      | none => left; rfl
      | some dt =>
        right
        have hdt : dt.tzJST = false := by
          rw [strptimeYmdHms] at hq
          cases hp : parseFields s with
          | none => rw [hp] at hq; cases hq
          | some t =>
            rw [hp] at hq
            obtain ⟨y, mo, d, h, mi, se⟩ := t
            dsimp only at hq
            by_cases hv : y < 1 ∨ daysInMonth y mo < d ∨ 59 < se
            · rw [if_pos hv] at hq; cases hq
            · rw [if_neg hv] at hq
              injection hq with hq'
              rw [← hq']
        refine ⟨if zoneAvail then { dt with tzJST := true } else dt, rfl, ?_⟩
        cases zoneAvail with
        | true => rfl
        | false => simpa using hdt
  · rfl

/-- C3 counterexample: the claim's third fallback level says a record whose
country code has no table entry and whose feed-supplied country name is
empty is rendered as "country unknown" (国不明) together with the raw code.
The record with code "9999" and empty name refutes it: its country header is
`*国コード: 9999*`, and 国不明 appears nowhere in it.  (国不明 is rendered
only when the code itself is empty, and then no raw code is shown.) -/
theorem country_unknown_counterexample :
    List.lookup c3Mail.country_cd COUNTRY_CODE_MAP = none
    ∧ c3Mail.country_name = ""
    ∧ firstLineCountry c3Mail = "*国コード: 9999*"
    ∧ strContainsSub (firstLineCountry c3Mail) "国不明" = false := by
  refine ⟨by decide, rfl, by decide, by decide⟩

/-- C3 amended: the parenthetical display name is the table label when the
code is in the table (even if the feed name differs or is empty), else the
feed-supplied name, else it is omitted; the base label is
`国コード: <code>` whenever the code is nonempty, and 国不明 only when both
the code and the feed name are empty. -/
theorem country_display_fallback (m : Mail) :
    (∀ lbl, List.lookup m.country_cd COUNTRY_CODE_MAP = some lbl →
        parenCountry m = lbl
        ∧ firstLineCountry m = "*" ++ baseCountryLabel m ++ "*（" ++ lbl ++ "）")
    ∧ (List.lookup m.country_cd COUNTRY_CODE_MAP = none → m.country_name ≠ "" →
        parenCountry m = m.country_name
        ∧ firstLineCountry m
            = "*" ++ baseCountryLabel m ++ "*（" ++ m.country_name ++ "）")
    ∧ (List.lookup m.country_cd COUNTRY_CODE_MAP = none → m.country_name = "" →
        parenCountry m = ""
        ∧ firstLineCountry m = "*" ++ baseCountryLabel m ++ "*")
    ∧ (m.country_cd ≠ "" → baseCountryLabel m = "国コード: " ++ m.country_cd)
    ∧ (m.country_cd = "" → m.country_name = "" → baseCountryLabel m = "国不明")
    ∧ (m.country_cd = "" → m.country_name ≠ "" → baseCountryLabel m = m.country_name) := by
  have hcode : pyOrS m.country_cd "" = m.country_cd := pyOrS_empty_right m.country_cd
  refine ⟨?_, ?_, ?_, ?_, ?_, ?_⟩
  · intro lbl hl
    have hne := lookup_country_ne_empty _ _ hl
    have hparen : parenCountry m = lbl := by
      rw [parenCountry, hcode, hl]
      dsimp only
      rw [pyOrS, if_neg hne]
    refine ⟨hparen, ?_⟩
    rw [firstLineCountry, hparen, if_pos hne]
  · intro hl hn
    have hparen : parenCountry m = m.country_name := by
      rw [parenCountry, hcode, hl]
      dsimp only
      exact pyOrS_empty_right m.country_name
    refine ⟨hparen, ?_⟩
    rw [firstLineCountry, hparen, if_pos hn]
  · intro hl hn
    have hparen : parenCountry m = "" := by
      rw [parenCountry, hcode, hl]
      dsimp only
      rw [hn, pyOrS_empty_right]
    refine ⟨hparen, ?_⟩
    rw [firstLineCountry, hparen, if_neg (by simp)]
  · intro hc
    rw [baseCountryLabel, hcode, if_pos hc]
  · intro hc hn
    rw [baseCountryLabel, hcode, if_neg (by simp [hc]), pyOrS, if_pos hn]
  · intro hc hn
    rw [baseCountryLabel, hcode, if_neg (by simp [hc]), pyOrS, if_neg hn]

theorem country_display_fallback_witness :
    parenCountry mThai = "タイ"
    ∧ parenCountry mNoTable = "どこか"
    ∧ baseCountryLabel emptyMail = "国不明" :=
  ⟨((country_display_fallback mThai).1 "タイ" (by decide)).1,
   ((country_display_fallback mNoTable).2.1 (by decide) (by decide)).1,
   (country_display_fallback emptyMail).2.2.2.2.1 rfl rfl⟩

/-- C4: notice-type display uses the table label when the code is in the
static type table, else the feed long name, else the feed short name, else
the raw code itself (always rendered as `<code>（<label>）`). -/
theorem type_display_fallback (m : Mail) :
    (∀ lbl, List.lookup m.info_type INFO_TYPE_MAP = some lbl →
        typeText m = m.info_type ++ "（" ++ lbl ++ "）")
    ∧ (List.lookup m.info_type INFO_TYPE_MAP = none → m.info_name_long ≠ "" →
        typeText m = m.info_type ++ "（" ++ m.info_name_long ++ "）")
    ∧ (List.lookup m.info_type INFO_TYPE_MAP = none → m.info_name_long = "" →
        m.info_name ≠ "" → typeText m = m.info_type ++ "（" ++ m.info_name ++ "）")
    ∧ (List.lookup m.info_type INFO_TYPE_MAP = none → m.info_name_long = "" →
        m.info_name = "" → typeText m = m.info_type ++ "（" ++ m.info_type ++ "）") := by
  refine ⟨?_, ?_, ?_, ?_⟩
  · intro lbl hl
    have hne := lookup_info_type_ne_empty _ _ hl
    rw [typeText, hl]
    dsimp only [Option.getD]
    rw [if_pos hne]
  · intro hl hn
    rw [typeText, hl]
    dsimp only [Option.getD]
    rw [if_neg (by simp)]
    have h1 : pyOrS m.info_name_long m.info_name = m.info_name_long := by
      rw [pyOrS, if_neg hn]
    rw [h1, pyOrS, if_neg hn]
  · intro hl hlong hn
    rw [typeText, hl]
    dsimp only [Option.getD]
    rw [if_neg (by simp)]
    have h1 : pyOrS m.info_name_long m.info_name = m.info_name := by
      rw [pyOrS, if_pos hlong]
    rw [h1, pyOrS, if_neg hn]
  · intro hl hlong hn
    rw [typeText, hl]
    dsimp only [Option.getD]
    rw [if_neg (by simp)]
    have h1 : pyOrS m.info_name_long m.info_name = m.info_name := by
      rw [pyOrS, if_pos hlong]
    rw [h1, pyOrS, if_pos hn]

theorem type_display_fallback_witness :
    typeText mT40 = "T40（危険情報）"
    ∧ typeText mZ1 = "Z99（長い名前）"
    ∧ typeText mZ2 = "Z99（短い）"
    ∧ typeText mZ3 = "Z99（Z99）" := by
  refine ⟨?_, ?_, ?_, ?_⟩
  · rw [(type_display_fallback mT40).1 "危険情報" (by decide)]
    decide
  · rw [(type_display_fallback mZ1).2.1 (by decide) (by decide)]
    decide
  · rw [(type_display_fallback mZ2).2.2.1 (by decide) rfl (by decide)]
    decide
  · rw [(type_display_fallback mZ3).2.2.2 (by decide) rfl rfl]
    decide

/-- C5: the severity line lists flagged tiers in descending order — infection
tiers 2 and 4 flagged "Y" (1 and 3 not) render as "L4 / L2", appearing in the
block's level parts — and a record with none of the eight tier flags equal to
"Y" produces no severity line at all (`level_text` is empty). -/
theorem severity_rendering (m : Mail) :
    (m.infection_level2 = "Y" → m.infection_level4 = "Y" →
     m.infection_level1 ≠ "Y" → m.infection_level3 ≠ "Y" →
        lvStrInf m = "L4 / L2"
        ∧ ("感染症危険レベル: " ++ lvStrInf m) ∈ levelParts m)
    ∧ (m.risk_level1 ≠ "Y" → m.risk_level2 ≠ "Y" →
       m.risk_level3 ≠ "Y" → m.risk_level4 ≠ "Y" →
       m.infection_level1 ≠ "Y" → m.infection_level2 ≠ "Y" →
       m.infection_level3 ≠ "Y" → m.infection_level4 ≠ "Y" →
        levelParts m = [] ∧ levelText m = "") := by
  constructor
  · intro h2 h4 h1 h3
    have h1b : (infFlag m 1 == "Y") = false := by simp [infFlag, h1]
    have h2b : (infFlag m 2 == "Y") = true := by simp [infFlag, h2]
    have h3b : (infFlag m 3 == "Y") = false := by simp [infFlag, h3]
    have h4b : (infFlag m 4 == "Y") = true := by simp [infFlag, h4]
    have hstr : lvStrInf m = "L4 / L2" := by
      rw [lvStrInf]
      simp only [List.filter_cons, List.filter_nil, h1b, h2b, h3b, h4b,
        if_true, if_false]
      decide
    refine ⟨hstr, ?_⟩
    have hany : (([1, 2, 3, 4] : List Nat).any (fun lv => infFlag m lv == "Y")) = true := by
      simp [List.any_cons, h2b]
    rw [levelParts, hany]
    simp
  · intro hr1 hr2 hr3 hr4 hi1 hi2 hi3 hi4
    have hrany : (([1, 2, 3, 4] : List Nat).any (fun lv => riskFlag m lv == "Y")) = false := by
      simp [List.any_cons, riskFlag, hr1, hr2, hr3, hr4]
    have hiany : (([1, 2, 3, 4] : List Nat).any (fun lv => infFlag m lv == "Y")) = false := by
      simp [List.any_cons, infFlag, hi1, hi2, hi3, hi4]
    have hparts : levelParts m = [] := by
      rw [levelParts, hrany, hiany]
      simp
    exact ⟨hparts, by rw [levelText, hparts]; simp⟩

theorem severity_rendering_witness :
    lvStrInf mInf24 = "L4 / L2" ∧ levelText emptyMail = "" :=
  ⟨((severity_rendering mInf24).1 rfl rfl (by decide) (by decide)).1,
   ((severity_rendering emptyMail).2 (by decide) (by decide) (by decide) (by decide)
     (by decide) (by decide) (by decide) (by decide)).2⟩

/-- C6: the formatter sorts records ascending by the publish-timestamp key
with a stable sort — the sorted list is pairwise nondecreasing in the key,
the subsequence of records with any fixed key is unchanged (equal timestamps
keep their relative order), the digest's blocks follow the sorted list — and
three records with publish times T1 < T3 < T2 fed in the order
(T1, T2, T3) come out ordered (T1, T3, T2). -/
theorem formatter_sort_stable (nowStr : String) (l : List Mail) :
    (sortMails l).Pairwise (fun a b => leaveKey a ≤ leaveKey b)
    ∧ (∀ k : Int, (sortMails l).filter (fun m => leaveKey m == k)
        = l.filter (fun m => leaveKey m == k))
    ∧ (l ≠ [] → build_slack_text nowStr l
        = some (joinWith "\n" (headerLines nowStr ++ (sortMails l).map mailBlock)))
    ∧ (leaveKey mT1 < leaveKey mT3 ∧ leaveKey mT3 < leaveKey mT2
        ∧ sortMails [mT1, mT2, mT3] = [mT1, mT3, mT2]) := by
  refine ⟨sortMails_pairwise l, fun k => sortMails_filter k l, ?_, by decide⟩
  intro h
  rw [build_slack_text, if_neg h]

theorem formatter_sort_stable_witness :
    build_slack_text "now" [mT1, mT2, mT3]
      = some (joinWith "\n" (headerLines "now"
          ++ (sortMails [mT1, mT2, mT3]).map mailBlock)) :=
  (formatter_sort_stable "now" [mT1, mT2, mT3]).2.2.1 (by decide)

/-- C7: when the filtered record set is empty, the run ends with the
no-new-items status and performs no delivery POST — `post_to_slack` is never
reached, whatever the webhook configuration. -/
theorem empty_no_notify (zoneAvail : Bool) (webhook : Option String) (nowSec : Int)
    (nowStr : String) (xs : List XmlMail)
    (h : target_mails nowSec zoneAvail xs = []) :
    mainRun zoneAvail webhook nowSec nowStr xs
      = Except.ok (RunOutcome.noNewItems noNewItemsMsg)
    ∧ postOf (mainRun zoneAvail webhook nowSec nowStr xs) = none := by
  have hm : mainRun zoneAvail webhook nowSec nowStr xs
      = Except.ok (RunOutcome.noNewItems noNewItemsMsg) := by
    rw [mainRun]
    simp only [h, if_pos]
  exact ⟨hm, by rw [hm]; rfl⟩

theorem empty_no_notify_witness :
    mainRun true none nowW "2024-01-03 09:00" [xStale]
      = Except.ok (RunOutcome.noNewItems noNewItemsMsg) :=
  (empty_no_notify true none nowW "2024-01-03 09:00" [xStale] (by decide)).1

/-- C8: with the webhook environment variable absent, `post_to_slack` raises
the configuration error before any delivery POST is constructed, and a run
with a nonempty filtered set aborts with that error and performs no POST —
even though a nonempty digest text was built. -/
theorem missing_webhook_config_error (zoneAvail : Bool) (nowSec : Int) (nowStr : String)
    (xs : List XmlMail) (h : target_mails nowSec zoneAvail xs ≠ []) :
    (∀ text, post_to_slack none text = Except.error configErrMsg)
    ∧ (∃ t, build_slack_text nowStr (target_mails nowSec zoneAvail xs) = some t ∧ t ≠ "")
    ∧ mainRun zoneAvail none nowSec nowStr xs = Except.error configErrMsg
    ∧ postOf (mainRun zoneAvail none nowSec nowStr xs) = none := by
  obtain ⟨t, hbuild, htne⟩ := build_slack_text_ne_empty nowStr _ h
  have hmain : mainRun zoneAvail none nowSec nowStr xs = Except.error configErrMsg := by
    rw [mainRun]
    simp only [if_neg h, hbuild]
    rw [if_neg htne]
    rfl
  exact ⟨fun _ => rfl, ⟨t, hbuild, htne⟩, hmain, by rw [hmain]; rfl⟩

theorem missing_webhook_config_error_witness :
    mainRun true none nowW "2024-01-03 09:00" [xW] = Except.error configErrMsg :=
  (missing_webhook_config_error true nowW "2024-01-03 09:00" [xW] (by decide)).2.2.1

/-- C10: the formatter does not disturb its caller's list — the list the
caller holds after `build_slack_text(mails)` returns is the argument
unchanged, the sort being performed on a fresh list — and when a run
delivers, the printed count is the length of the window-filtered record
list. -/
theorem formatter_no_mutation (zoneAvail : Bool) (nowStr : String) (l : List Mail) :
    (buildSlackTextCall nowStr l).2 = l
    ∧ ∀ webhook nowSec xs p pr,
        mainRun zoneAvail webhook nowSec nowStr xs = Except.ok (RunOutcome.sent p pr) →
        pr = toString (target_mails nowSec zoneAvail xs).length
          ++ " 件の情報を Slack に送信しました。" := by
  refine ⟨rfl, ?_⟩
  intro webhook nowSec xs p pr hsent
  rw [mainRun] at hsent
  by_cases htm : target_mails nowSec zoneAvail xs = []
  · simp only [htm, if_pos] at hsent
    cases hsent
  · simp only [if_neg htm] at hsent
    cases hbuild : build_slack_text nowStr (target_mails nowSec zoneAvail xs) with
    | none => rw [hbuild] at hsent; cases hsent
    | some text =>
      rw [hbuild] at hsent
      dsimp only at hsent
      by_cases hte : text = ""
      · rw [if_pos hte] at hsent; cases hsent
      · rw [if_neg hte] at hsent
        cases webhook with
        | none =>
          rw [show post_to_slack none text = Except.error configErrMsg from rfl] at hsent
          cases hsent
        | some url =>
          rw [post_to_slack] at hsent
          by_cases hu : url = ""
          · rw [if_pos hu] at hsent
            cases hsent
          · rw [if_neg hu] at hsent
            dsimp only at hsent
            injection hsent with h1
            injection h1 with hpost hprint
            exact hprint.symm

theorem formatter_no_mutation_witness :
    (buildSlackTextCall "2024-01-03 09:00" [mT1]).2 = [mT1]
    ∧ printedW = toString (target_mails nowW true [xW]).length
        ++ " 件の情報を Slack に送信しました。" :=
  ⟨(formatter_no_mutation true "2024-01-03 09:00" [mT1]).1,
   (formatter_no_mutation true "2024-01-03 09:00" [mT1]).2 (some urlW) nowW [xW]
     postW printedW (by decide)⟩
